import Mathlib

/-!
Verification of the core numerology engine of the numerologist repository
(`libs/numerology/src/calculator.py`, `libs/numerology/src/vietnamese_mappings.py`,
`libs/numerology/src/interpretations.py`, and the date validation in
`apps/api/src/services/numerology_service.py`) against its specification.

Python strings are modelled as `List Char` (sequences of Unicode code points).
The Unicode data the source obtains from the Python `unicodedata` / `str` methods
(NFD decomposition, upper/lower case maps, alphabetic classification) is embedded
as explicit finite tables, faithful to the Unicode character database on the
repertoire the application handles (ASCII, the Vietnamese alphabet, the sharp s),
and defaulting to the identity (resp. `false`) outside the tables.
-/

set_option maxRecDepth 40000

set_option maxHeartbeats 2000000

/-- Association-list lookup, modelling Python `dict` access with `in` checks. -/
def tableGet {α β : Type} [DecidableEq α] : List (α × β) → α → Option β
  | [], _ => none
  | (k, v) :: rest, a => if a = k then some v else tableGet rest a

/-! ### Decimal digit sum

`calculator.py` repeatedly computes `sum(int(digit) for digit in str(n))`,
the sum of the decimal digits of a non-negative integer.  We implement it with
explicit fuel so that it is structurally recursive (hence kernel-reducible);
`n` units of fuel always suffice because the number of decimal digits of `n`
is at most `n`. -/

def digitSumFuel : Nat → Nat → Nat
  | _, 0 => 0
  | 0, _ + 1 => 0
  | f + 1, n + 1 => (n + 1) % 10 + digitSumFuel f ((n + 1) / 10)

/-- Sum of the decimal digits of `n` (`sum(int(d) for d in str(n))`). -/
def digitSum (n : Nat) : Nat := digitSumFuel n n

/-! ### The digit reducer `_reduce_to_single_digit`

```
n = abs(int(n))
while n >= 10:
    if n in (11, 22, 33):
        return n
    n = sum(int(digit) for digit in str(n))
return n if n > 0 else 9
```
The while loop is implemented with fuel; `n + 1` units suffice since the value
strictly decreases at every iteration (`digitSum_lt`). -/

def reduceFuel : Nat → Nat → Nat
  | 0, n => n
  | f + 1, n =>
    if n < 10 then (if 0 < n then n else 9)
    else if n = 11 ∨ n = 22 ∨ n = 33 then n
    else reduceFuel f (digitSum n)

/-- The reduction loop of the reducer on a non-negative value. -/
def reduceNat (n : Nat) : Nat := reduceFuel (n + 1) n

/-- `_reduce_to_single_digit` from `calculator.py`: absolute value, then the
reduction loop. -/
def reduce_to_single_digit (n : Int) : Int := (reduceNat n.natAbs : Int)

/-! ### Unicode model

Finite tables embedding the Unicode data that the source relies on through
the Python `str.upper`, `str.lower`, `str.isalpha` and
`unicodedata.normalize("NFD", ...)`, restricted to the repertoire the
application handles: ASCII, the precomposed Vietnamese letters (both cases),
and the sharp s letters ß / ẞ.  Characters outside the tables keep their
default behaviour: case maps and NFD are the identity, `isalpha` is `false`.
`str.upper` / `str.lower` may change the length of a string (Python maps
`"ß".upper()` to `"SS"`), so the per-character case maps return lists. -/

def upperPairs : List (Char × List Char) :=
  [('a', ['A']),
   ('b', ['B']),
   ('c', ['C']),
   ('d', ['D']),
   ('e', ['E']),
   ('f', ['F']),
   ('g', ['G']),
   ('h', ['H']),
   ('i', ['I']),
   ('j', ['J']),
   ('k', ['K']),
   ('l', ['L']),
   ('m', ['M']),
   ('n', ['N']),
   ('o', ['O']),
   ('p', ['P']),
   ('q', ['Q']),
   ('r', ['R']),
   ('s', ['S']),
   ('t', ['T']),
   ('u', ['U']),
   ('v', ['V']),
   ('w', ['W']),
   ('x', ['X']),
   ('y', ['Y']),
   ('z', ['Z']),
   ('á', ['Á']),
   ('à', ['À']),
   ('ả', ['Ả']),
   ('ã', ['Ã']),
   ('ạ', ['Ạ']),
   ('ă', ['Ă']),
   ('ắ', ['Ắ']),
   ('ằ', ['Ằ']),
   ('ẳ', ['Ẳ']),
   ('ẵ', ['Ẵ']),
   ('ặ', ['Ặ']),
   ('â', ['Â']),
   ('ấ', ['Ấ']),
   ('ầ', ['Ầ']),
   ('ẩ', ['Ẩ']),
   ('ẫ', ['Ẫ']),
   ('ậ', ['Ậ']),
   ('é', ['É']),
   ('è', ['È']),
   ('ẻ', ['Ẻ']),
   ('ẽ', ['Ẽ']),
   ('ẹ', ['Ẹ']),
   ('ê', ['Ê']),
   ('ế', ['Ế']),
   ('ề', ['Ề']),
   ('ể', ['Ể']),
   ('ễ', ['Ễ']),
   ('ệ', ['Ệ']),
   ('í', ['Í']),
   ('ì', ['Ì']),
   ('ỉ', ['Ỉ']),
   ('ĩ', ['Ĩ']),
   ('ị', ['Ị']),
   ('ó', ['Ó']),
   ('ò', ['Ò']),
   ('ỏ', ['Ỏ']),
   ('õ', ['Õ']),
   ('ọ', ['Ọ']),
   ('ô', ['Ô']),
   ('ố', ['Ố']),
   ('ồ', ['Ồ']),
   ('ổ', ['Ổ']),
   ('ỗ', ['Ỗ']),
   ('ộ', ['Ộ']),
   ('ơ', ['Ơ']),
   ('ớ', ['Ớ']),
   ('ờ', ['Ờ']),
   ('ở', ['Ở']),
   ('ỡ', ['Ỡ']),
   ('ợ', ['Ợ']),
   ('ú', ['Ú']),
   ('ù', ['Ù']),
   ('ủ', ['Ủ']),
   ('ũ', ['Ũ']),
   ('ụ', ['Ụ']),
   ('ư', ['Ư']),
   ('ứ', ['Ứ']),
   ('ừ', ['Ừ']),
   ('ử', ['Ử']),
   ('ữ', ['Ữ']),
   ('ự', ['Ự']),
   ('ý', ['Ý']),
   ('ỳ', ['Ỳ']),
   ('ỷ', ['Ỷ']),
   ('ỹ', ['Ỹ']),
   ('ỵ', ['Ỵ']),
   ('đ', ['Đ']),
   ('ß', ['S', 'S'])]

def lowerPairs : List (Char × List Char) :=
  [('A', ['a']),
   ('B', ['b']),
   ('C', ['c']),
   ('D', ['d']),
   ('E', ['e']),
   ('F', ['f']),
   ('G', ['g']),
   ('H', ['h']),
   ('I', ['i']),
   ('J', ['j']),
   ('K', ['k']),
   ('L', ['l']),
   ('M', ['m']),
   ('N', ['n']),
   ('O', ['o']),
   ('P', ['p']),
   ('Q', ['q']),
   ('R', ['r']),
   ('S', ['s']),
   ('T', ['t']),
   ('U', ['u']),
   ('V', ['v']),
   ('W', ['w']),
   ('X', ['x']),
   ('Y', ['y']),
   ('Z', ['z']),
   ('Á', ['á']),
   ('À', ['à']),
   ('Ả', ['ả']),
   ('Ã', ['ã']),
   ('Ạ', ['ạ']),
   ('Ă', ['ă']),
   ('Ắ', ['ắ']),
   ('Ằ', ['ằ']),
   ('Ẳ', ['ẳ']),
   ('Ẵ', ['ẵ']),
   ('Ặ', ['ặ']),
   ('Â', ['â']),
   ('Ấ', ['ấ']),
   ('Ầ', ['ầ']),
   ('Ẩ', ['ẩ']),
   ('Ẫ', ['ẫ']),
   ('Ậ', ['ậ']),
   ('É', ['é']),
   ('È', ['è']),
   ('Ẻ', ['ẻ']),
   ('Ẽ', ['ẽ']),
   ('Ẹ', ['ẹ']),
   ('Ê', ['ê']),
   ('Ế', ['ế']),
   ('Ề', ['ề']),
   ('Ể', ['ể']),
   ('Ễ', ['ễ']),
   ('Ệ', ['ệ']),
   ('Í', ['í']),
   ('Ì', ['ì']),
   ('Ỉ', ['ỉ']),
   ('Ĩ', ['ĩ']),
   ('Ị', ['ị']),
   ('Ó', ['ó']),
   ('Ò', ['ò']),
   ('Ỏ', ['ỏ']),
   ('Õ', ['õ']),
   ('Ọ', ['ọ']),
   ('Ô', ['ô']),
   ('Ố', ['ố']),
   ('Ồ', ['ồ']),
   ('Ổ', ['ổ']),
   ('Ỗ', ['ỗ']),
   ('Ộ', ['ộ']),
   ('Ơ', ['ơ']),
   ('Ớ', ['ớ']),
   ('Ờ', ['ờ']),
   ('Ở', ['ở']),
   ('Ỡ', ['ỡ']),
   ('Ợ', ['ợ']),
   ('Ú', ['ú']),
   ('Ù', ['ù']),
   ('Ủ', ['ủ']),
   ('Ũ', ['ũ']),
   ('Ụ', ['ụ']),
   ('Ư', ['ư']),
   ('Ứ', ['ứ']),
   ('Ừ', ['ừ']),
   ('Ử', ['ử']),
   ('Ữ', ['ữ']),
   ('Ự', ['ự']),
   ('Ý', ['ý']),
   ('Ỳ', ['ỳ']),
   ('Ỷ', ['ỷ']),
   ('Ỹ', ['ỹ']),
   ('Ỵ', ['ỵ']),
   ('Đ', ['đ']),
   ('ẞ', ['ß'])]

def nfdPairs : List (Char × List Char) :=
  [('á', ['a', '́']),
   ('à', ['a', '̀']),
   ('ả', ['a', '̉']),
   ('ã', ['a', '̃']),
   ('ạ', ['a', '̣']),
   ('ă', ['a', '̆']),
   ('ắ', ['a', '̆', '́']),
   ('ằ', ['a', '̆', '̀']),
   ('ẳ', ['a', '̆', '̉']),
   ('ẵ', ['a', '̆', '̃']),
   ('ặ', ['a', '̣', '̆']),
   ('â', ['a', '̂']),
   ('ấ', ['a', '̂', '́']),
   ('ầ', ['a', '̂', '̀']),
   ('ẩ', ['a', '̂', '̉']),
   ('ẫ', ['a', '̂', '̃']),
   ('ậ', ['a', '̣', '̂']),
   ('é', ['e', '́']),
   ('è', ['e', '̀']),
   ('ẻ', ['e', '̉']),
   ('ẽ', ['e', '̃']),
   ('ẹ', ['e', '̣']),
   ('ê', ['e', '̂']),
   ('ế', ['e', '̂', '́']),
   ('ề', ['e', '̂', '̀']),
   ('ể', ['e', '̂', '̉']),
   ('ễ', ['e', '̂', '̃']),
   ('ệ', ['e', '̣', '̂']),
   ('í', ['i', '́']),
   ('ì', ['i', '̀']),
   ('ỉ', ['i', '̉']),
   ('ĩ', ['i', '̃']),
   ('ị', ['i', '̣']),
   ('ó', ['o', '́']),
   ('ò', ['o', '̀']),
   ('ỏ', ['o', '̉']),
   ('õ', ['o', '̃']),
   ('ọ', ['o', '̣']),
   ('ô', ['o', '̂']),
   ('ố', ['o', '̂', '́']),
   ('ồ', ['o', '̂', '̀']),
   ('ổ', ['o', '̂', '̉']),
   ('ỗ', ['o', '̂', '̃']),
   ('ộ', ['o', '̣', '̂']),
   ('ơ', ['o', '̛']),
   ('ớ', ['o', '̛', '́']),
   ('ờ', ['o', '̛', '̀']),
   ('ở', ['o', '̛', '̉']),
   ('ỡ', ['o', '̛', '̃']),
   ('ợ', ['o', '̛', '̣']),
   ('ú', ['u', '́']),
   ('ù', ['u', '̀']),
   ('ủ', ['u', '̉']),
   ('ũ', ['u', '̃']),
   ('ụ', ['u', '̣']),
   ('ư', ['u', '̛']),
   ('ứ', ['u', '̛', '́']),
   ('ừ', ['u', '̛', '̀']),
   ('ử', ['u', '̛', '̉']),
   ('ữ', ['u', '̛', '̃']),
   ('ự', ['u', '̛', '̣']),
   ('ý', ['y', '́']),
   ('ỳ', ['y', '̀']),
   ('ỷ', ['y', '̉']),
   ('ỹ', ['y', '̃']),
   ('ỵ', ['y', '̣']),
   ('Á', ['A', '́']),
   ('À', ['A', '̀']),
   ('Ả', ['A', '̉']),
   ('Ã', ['A', '̃']),
   ('Ạ', ['A', '̣']),
   ('Ă', ['A', '̆']),
   ('Ắ', ['A', '̆', '́']),
   ('Ằ', ['A', '̆', '̀']),
   ('Ẳ', ['A', '̆', '̉']),
   ('Ẵ', ['A', '̆', '̃']),
   ('Ặ', ['A', '̣', '̆']),
   ('Â', ['A', '̂']),
   ('Ấ', ['A', '̂', '́']),
   ('Ầ', ['A', '̂', '̀']),
   ('Ẩ', ['A', '̂', '̉']),
   ('Ẫ', ['A', '̂', '̃']),
   ('Ậ', ['A', '̣', '̂']),
   ('É', ['E', '́']),
   ('È', ['E', '̀']),
   ('Ẻ', ['E', '̉']),
   ('Ẽ', ['E', '̃']),
   ('Ẹ', ['E', '̣']),
   ('Ê', ['E', '̂']),
   ('Ế', ['E', '̂', '́']),
   ('Ề', ['E', '̂', '̀']),
   ('Ể', ['E', '̂', '̉']),
   ('Ễ', ['E', '̂', '̃']),
   ('Ệ', ['E', '̣', '̂']),
   ('Í', ['I', '́']),
   ('Ì', ['I', '̀']),
   ('Ỉ', ['I', '̉']),
   ('Ĩ', ['I', '̃']),
   ('Ị', ['I', '̣']),
   ('Ó', ['O', '́']),
   ('Ò', ['O', '̀']),
   ('Ỏ', ['O', '̉']),
   ('Õ', ['O', '̃']),
   ('Ọ', ['O', '̣']),
   ('Ô', ['O', '̂']),
   ('Ố', ['O', '̂', '́']),
   ('Ồ', ['O', '̂', '̀']),
   ('Ổ', ['O', '̂', '̉']),
   ('Ỗ', ['O', '̂', '̃']),
   ('Ộ', ['O', '̣', '̂']),
   ('Ơ', ['O', '̛']),
   ('Ớ', ['O', '̛', '́']),
   ('Ờ', ['O', '̛', '̀']),
   ('Ở', ['O', '̛', '̉']),
   ('Ỡ', ['O', '̛', '̃']),
   ('Ợ', ['O', '̛', '̣']),
   ('Ú', ['U', '́']),
   ('Ù', ['U', '̀']),
   ('Ủ', ['U', '̉']),
   ('Ũ', ['U', '̃']),
   ('Ụ', ['U', '̣']),
   ('Ư', ['U', '̛']),
   ('Ứ', ['U', '̛', '́']),
   ('Ừ', ['U', '̛', '̀']),
   ('Ử', ['U', '̛', '̉']),
   ('Ữ', ['U', '̛', '̃']),
   ('Ự', ['U', '̛', '̣']),
   ('Ý', ['Y', '́']),
   ('Ỳ', ['Y', '̀']),
   ('Ỷ', ['Y', '̉']),
   ('Ỹ', ['Y', '̃']),
   ('Ỵ', ['Y', '̣'])]

def alphaChars : List Char :=
  ['A', 'B', 'C', 'D', 'E', 'F', 'G', 'H', 'I', 'J', 'K', 'L', 'M', 'N', 'O', 'P', 'Q', 'R', 'S', 'T', 'U', 'V', 'W', 'X', 'Y', 'Z', 'a', 'b', 'c', 'd', 'e', 'f', 'g', 'h', 'i', 'j', 'k', 'l', 'm', 'n', 'o', 'p', 'q', 'r', 's', 't', 'u', 'v', 'w', 'x', 'y', 'z', 'á', 'à', 'ả', 'ã', 'ạ', 'ă', 'ắ', 'ằ', 'ẳ', 'ẵ', 'ặ', 'â', 'ấ', 'ầ', 'ẩ', 'ẫ', 'ậ', 'é', 'è', 'ẻ', 'ẽ', 'ẹ', 'ê', 'ế', 'ề', 'ể', 'ễ', 'ệ', 'í', 'ì', 'ỉ', 'ĩ', 'ị', 'ó', 'ò', 'ỏ', 'õ', 'ọ', 'ô', 'ố', 'ồ', 'ổ', 'ỗ', 'ộ', 'ơ', 'ớ', 'ờ', 'ở', 'ỡ', 'ợ', 'ú', 'ù', 'ủ', 'ũ', 'ụ', 'ư', 'ứ', 'ừ', 'ử', 'ữ', 'ự', 'ý', 'ỳ', 'ỷ', 'ỹ', 'ỵ', 'đ', 'Á', 'À', 'Ả', 'Ã', 'Ạ', 'Ă', 'Ắ', 'Ằ', 'Ẳ', 'Ẵ', 'Ặ', 'Â', 'Ấ', 'Ầ', 'Ẩ', 'Ẫ', 'Ậ', 'É', 'È', 'Ẻ', 'Ẽ', 'Ẹ', 'Ê', 'Ế', 'Ề', 'Ể', 'Ễ', 'Ệ', 'Í', 'Ì', 'Ỉ', 'Ĩ', 'Ị', 'Ó', 'Ò', 'Ỏ', 'Õ', 'Ọ', 'Ô', 'Ố', 'Ồ', 'Ổ', 'Ỗ', 'Ộ', 'Ơ', 'Ớ', 'Ờ', 'Ở', 'Ỡ', 'Ợ', 'Ú', 'Ù', 'Ủ', 'Ũ', 'Ụ', 'Ư', 'Ứ', 'Ừ', 'Ử', 'Ữ', 'Ự', 'Ý', 'Ỳ', 'Ỷ', 'Ỹ', 'Ỵ', 'Đ', 'ß', 'ẞ']

def c4MarkedBasePairs : List (Char × Char) :=
  [('á', 'a'),
   ('Á', 'A'),
   ('à', 'a'),
   ('À', 'A'),
   ('ả', 'a'),
   ('Ả', 'A'),
   ('ã', 'a'),
   ('Ã', 'A'),
   ('ạ', 'a'),
   ('Ạ', 'A'),
   ('ă', 'a'),
   ('Ă', 'A'),
   ('ắ', 'a'),
   ('Ắ', 'A'),
   ('ằ', 'a'),
   ('Ằ', 'A'),
   ('ẳ', 'a'),
   ('Ẳ', 'A'),
   ('ẵ', 'a'),
   ('Ẵ', 'A'),
   ('ặ', 'a'),
   ('Ặ', 'A'),
   ('â', 'a'),
   ('Â', 'A'),
   ('ấ', 'a'),
   ('Ấ', 'A'),
   ('ầ', 'a'),
   ('Ầ', 'A'),
   ('ẩ', 'a'),
   ('Ẩ', 'A'),
   ('ẫ', 'a'),
   ('Ẫ', 'A'),
   ('ậ', 'a'),
   ('Ậ', 'A'),
   ('é', 'e'),
   ('É', 'E'),
   ('è', 'e'),
   ('È', 'E'),
   ('ẻ', 'e'),
   ('Ẻ', 'E'),
   ('ẽ', 'e'),
   ('Ẽ', 'E'),
   ('ẹ', 'e'),
   ('Ẹ', 'E'),
   ('ê', 'e'),
   ('Ê', 'E'),
   ('ế', 'e'),
   ('Ế', 'E'),
   ('ề', 'e'),
   ('Ề', 'E'),
   ('ể', 'e'),
   ('Ể', 'E'),
   ('ễ', 'e'),
   ('Ễ', 'E'),
   ('ệ', 'e'),
   ('Ệ', 'E'),
   ('í', 'i'),
   ('Í', 'I'),
   ('ì', 'i'),
   ('Ì', 'I'),
   ('ỉ', 'i'),
   ('Ỉ', 'I'),
   ('ĩ', 'i'),
   ('Ĩ', 'I'),
   ('ị', 'i'),
   ('Ị', 'I'),
   ('ó', 'o'),
   ('Ó', 'O'),
   ('ò', 'o'),
   ('Ò', 'O'),
   ('ỏ', 'o'),
   ('Ỏ', 'O'),
   ('õ', 'o'),
   ('Õ', 'O'),
   ('ọ', 'o'),
   ('Ọ', 'O'),
   ('ô', 'o'),
   ('Ô', 'O'),
   ('ố', 'o'),
   ('Ố', 'O'),
   ('ồ', 'o'),
   ('Ồ', 'O'),
   ('ổ', 'o'),
   ('Ổ', 'O'),
   ('ỗ', 'o'),
   ('Ỗ', 'O'),
   ('ộ', 'o'),
   ('Ộ', 'O'),
   ('ơ', 'o'),
   ('Ơ', 'O'),
   ('ớ', 'o'),
   ('Ớ', 'O'),
   ('ờ', 'o'),
   ('Ờ', 'O'),
   ('ở', 'o'),
   ('Ở', 'O'),
   ('ỡ', 'o'),
   ('Ỡ', 'O'),
   ('ợ', 'o'),
   ('Ợ', 'O'),
   ('ú', 'u'),
   ('Ú', 'U'),
   ('ù', 'u'),
   ('Ù', 'U'),
   ('ủ', 'u'),
   ('Ủ', 'U'),
   ('ũ', 'u'),
   ('Ũ', 'U'),
   ('ụ', 'u'),
   ('Ụ', 'U'),
   ('ư', 'u'),
   ('Ư', 'U'),
   ('ứ', 'u'),
   ('Ứ', 'U'),
   ('ừ', 'u'),
   ('Ừ', 'U'),
   ('ử', 'u'),
   ('Ử', 'U'),
   ('ữ', 'u'),
   ('Ữ', 'U'),
   ('ự', 'u'),
   ('Ự', 'U'),
   ('ớ', 'ơ'),
   ('Ớ', 'Ơ'),
   ('ờ', 'ơ'),
   ('Ờ', 'Ơ'),
   ('ở', 'ơ'),
   ('Ở', 'Ơ'),
   ('ỡ', 'ơ'),
   ('Ỡ', 'Ơ'),
   ('ợ', 'ơ'),
   ('Ợ', 'Ơ'),
   ('ứ', 'ư'),
   ('Ứ', 'Ư'),
   ('ừ', 'ư'),
   ('Ừ', 'Ư'),
   ('ử', 'ư'),
   ('Ử', 'Ư'),
   ('ữ', 'ư'),
   ('Ữ', 'Ư'),
   ('ự', 'ư'),
   ('Ự', 'Ư')]

def VIETNAMESE_VOWELS : List Char :=
  ['a', 'e', 'i', 'o', 'u', 'ơ', 'ư', 'â', 'ê', 'ô', 'ơ', 'ư', 'á', 'à', 'ả', 'ã', 'ạ', 'é', 'è', 'ẻ', 'ẽ', 'ẹ', 'í', 'ì', 'ỉ', 'ĩ', 'ị', 'ó', 'ò', 'ỏ', 'õ', 'ọ', 'ú', 'ù', 'ủ', 'ũ', 'ụ', 'ý', 'ỳ', 'ỷ', 'ỹ', 'ỵ', 'â', 'ấ', 'ầ', 'ẩ', 'ẫ', 'ậ', 'ê', 'ế', 'ề', 'ể', 'ễ', 'ệ', 'ô', 'ố', 'ồ', 'ổ', 'ỗ', 'ộ', 'ơ', 'ớ', 'ờ', 'ở', 'ỡ', 'ợ', 'ư', 'ứ', 'ừ', 'ử', 'ữ', 'ự']
-- count: 72 unique: 65

/-- Per-character `str.upper` (a list, since `"ß".upper() == "SS"`). -/
def pyUpperChar (c : Char) : List Char :=
  match tableGet upperPairs c with
  | some s => s
  | none => [c]

/-- Per-character `str.lower`. -/
def pyLowerChar (c : Char) : List Char :=
  match tableGet lowerPairs c with
  | some s => s
  | none => [c]

/-- Canonical decomposition (NFD) of a single character. -/
def nfdChar (c : Char) : List Char :=
  match tableGet nfdPairs c with
  | some s => s
  | none => [c]

/-- `str.isalpha` on a single character. -/
def pyIsAlpha (c : Char) : Bool := alphaChars.contains c

/-- `normalize_vietnamese` from `vietnamese_mappings.py`:
`unicodedata.normalize(NFD, text)`. -/
def normalize_vietnamese : List Char → List Char
  | [] => []
  | c :: cs => nfdChar c ++ normalize_vietnamese cs

/-- The Pythagorean `LETTER_TO_NUMBER` dict from `vietnamese_mappings.py`. -/
def LETTER_TO_NUMBER : List (Char × Nat) :=
  [('A', 1), ('B', 2), ('C', 3), ('D', 4), ('E', 5), ('F', 6), ('G', 7), ('H', 8), ('I', 9),
   ('J', 1), ('K', 2), ('L', 3), ('M', 4), ('N', 5), ('O', 6), ('P', 7), ('Q', 8), ('R', 9),
   ('S', 1), ('T', 2), ('U', 3), ('V', 4), ('W', 5), ('X', 6), ('Y', 7), ('Z', 8)]

/-- `get_letter_value` from `vietnamese_mappings.py`:

```
normalized = normalize_vietnamese(letter.upper())
if normalized and normalized[0] in LETTER_TO_NUMBER:
    return LETTER_TO_NUMBER[normalized[0]]
letter_upper = letter.upper()
if letter_upper in LETTER_TO_NUMBER:
    return LETTER_TO_NUMBER[letter_upper]
return 0
```
(The dict keys are single characters, so the fallback membership test can
only succeed when `letter.upper()` has length one.) -/
def get_letter_value (c : Char) : Nat :=
  let fb : Nat :=
    match pyUpperChar c with
    | [u] => (tableGet LETTER_TO_NUMBER u).getD 0
    | _ => 0
  match (normalize_vietnamese (pyUpperChar c)).head? with
  | some h =>
    match tableGet LETTER_TO_NUMBER h with
    | some v => v
    | none => fb
  | none => fb

/-- `is_vowel` from `vietnamese_mappings.py`: NFD-normalize the lowercased
letter and test whether the base character is in `VIETNAMESE_VOWELS`. -/
def is_vowel (c : Char) : Bool :=
  match (normalize_vietnamese (pyLowerChar c)).head? with
  | some b => VIETNAMESE_VOWELS.contains b
  | none => false

/-- `is_consonant` from `vietnamese_mappings.py`: alphabetic and not a vowel. -/
def is_consonant (c : Char) : Bool :=
  if !(pyIsAlpha c) then false else !(is_vowel c)

/-- `extract_vowels` from `vietnamese_mappings.py`. -/
def extract_vowels (text : List Char) : List Char := text.filter is_vowel

/-- `extract_consonants` from `vietnamese_mappings.py`. -/
def extract_consonants (text : List Char) : List Char := text.filter is_consonant

/-- `_sum_letter_values` from `calculator.py`:
`sum(get_letter_value(char) for char in text if get_letter_value(char) > 0)`. -/
def sum_letter_values : List Char → Nat
  | [] => 0
  | c :: cs =>
    (if 0 < get_letter_value c then get_letter_value c else 0) + sum_letter_values cs

/-- `calculateDestiny` from `calculator.py`. -/
def calculateDestiny (fullName : List Char) : Int :=
  reduce_to_single_digit (sum_letter_values fullName)

/-- `calculateSoulUrge` from `calculator.py`. -/
def calculateSoulUrge (fullName : List Char) : Int :=
  reduce_to_single_digit (sum_letter_values (extract_vowels fullName))

/-- `calculatePersonality` from `calculator.py`. -/
def calculatePersonality (fullName : List Char) : Int :=
  reduce_to_single_digit (sum_letter_values (extract_consonants fullName))

/-- `calculatePersonalYear` from `calculator.py`.  The source sums every digit
of the concatenation `f"{birthMonth:02d}{birthDay:02d}{currentYear:04d}"`; the
digit sum of that zero-padded concatenation is exactly
`digitSum birthMonth + digitSum birthDay + digitSum currentYear` (padding
zeros contribute 0, and `%02d`/`%04d` print every digit of wider values). -/
def calculatePersonalYear (birthMonth birthDay currentYear : Nat) : Int :=
  reduce_to_single_digit (digitSum birthMonth + digitSum birthDay + digitSum currentYear)

/-- `calculatePersonalMonth` from `calculator.py` (digit sum of
`f"{birthDay:02d}{currentMonth:02d}{currentYear:04d}"`, as above). -/
def calculatePersonalMonth (birthDay currentMonth currentYear : Nat) : Int :=
  reduce_to_single_digit (digitSum birthDay + digitSum currentMonth + digitSum currentYear)

/-! ### Character classification lemmas

`specialChars` collects every character that occurs in any of the Unicode
tables; outside it, every primitive acts as the identity / `false`, which is
what makes universally quantified statements about arbitrary strings provable:
finite checks settle the special characters, and the default behaviour settles
the rest. -/

def specialChars : List Char :=
  upperPairs.map Prod.fst ++ lowerPairs.map Prod.fst ++ nfdPairs.map Prod.fst ++
    alphaChars ++ VIETNAMESE_VOWELS ++ LETTER_TO_NUMBER.map Prod.fst

/-! ### Birth dates and `calculateLifePath`

`calculateLifePath` accepts a `datetime.date` or an ISO `YYYY-MM-DD` string,
converted with `date.fromisoformat`, which raises `ValueError` on any string
that is not a valid ISO calendar date.  The parser below embeds
`date.fromisoformat` restricted to the `YYYY-MM-DD` layout the application
uses (proleptic Gregorian calendar validity, years 1–9999), and the raised
`ValueError` — surfaced by the service layer as the dedicated
`INVALID_DATE_FORMAT` / spec-level `MALFORMED_DATE` failure — is modelled as
the `malformedDate` error of an `Except` result. -/

inductive InterpError : Type
  | unknownCategory
  | unknownValue
  | unsupportedLocale

def lifePathInterpretations : List (Int × String) :=
  [((1 : Int), "Lãnh đạo, độc lập, sáng tạo. Bạn là người tiên phong, có khả năng đưa ra quyết định và khởi tạo dự án mới. Sức mạnh trong tính tự chủ và quyết tâm."),
   ((2 : Int), "Hòa hợp, hợp tác, nhạy cảm. Bạn là người hòa nhập tập thể, giỏi lắng nghe và đưa ra sự cân bằng. Sức mạnh trong sự đồng cảm và ngoại giao."),
   ((3 : Int), "Sáng tạo, biểu hiện, giao tiếp. Bạn có khiếu nghệ thuật và thích chia sẻ ý tưởng. Sức mạnh trong sự vui vẻ và khả năng giao tiếp."),
   ((4 : Int), "Thực tế, ổn định, cần cù. Bạn là người xây dựng nền tảng vững chắc. Sức mạnh trong kỷ luật và tính đáng tin cậy."),
   ((5 : Int), "Tự do, phiêu lưu, thích nghi. Bạn yêu thích thay đổi và khám phá. Sức mạnh trong tính linh hoạt và sự trí tuệ."),
   ((6 : Int), "Tình yêu thương, trách nhiệm, hòa bình. Bạn là người chăm sóc và muốn tạo hòa bình. Sức mạnh trong sự cần mẫn và lòng trắc ẩn."),
   ((7 : Int), "Tâm linh, tư duy sâu sắc, tìm tòi. Bạn là người suy ngẫm và tìm hiểu chân lý. Sức mạnh trong trí tuệ và tính tâm linh."),
   ((8 : Int), "Sức mạnh, thành công, thế lực. Bạn có khả năng thành lập sự nghiệp lớn. Sức mạnh trong khả năng quản lý và tài chính."),
   ((9 : Int), "Nhân ái, hoàn thành, đạo đức. Bạn có lòng từ bi và muốn giúp đỡ nhân loại. Sức mạnh trong sự tổng quát và nhìn xa."),
   ((11 : Int), "Nhạy cảm siêu phàm, trực giác, lãnh tụ tinh thần. Bạn có sứ mệnh phát triển nhân loại. Sức mạnh trong tầm nhìn cao cả và khả năng truyền cảm hứng."),
   ((22 : Int), "Xây dựng chương trình, hoạch định lớn, lãnh tụ thiên bẩm. Bạn có khả năng thực hiện những dự án lớn lao. Sức mạnh trong tầm nhìn toàn cầu và khả năng lãnh đạo."),
   ((33 : Int), "Thầy tế, tình yêu vô điều kiện, tâm linh cao. Bạn có sứ mệnh giảng dạy và yêu thương. Sức mạnh trong khả năng chữa lành và giác ngộ.")]

def destinyInterpretations : List (Int × String) :=
  [((1 : Int), "Khác biệt và độc lập. Định mệnh của bạn là trở thành lãnh đạo độc lập, thiết lập con đường riêng, và thể hiện tính cá nhân mạnh mẽ."),
   ((2 : Int), "Hợp tác và sự cân bằng. Định mệnh của bạn là tạo hòa hợp, nỗ lực hòa hợp các khác biệt, và phát triển các mối quan hệ ý nghĩa."),
   ((3 : Int), "Biểu hiện sáng tạo. Định mệnh của bạn là chia sẻ tài năng sáng tạo, giao tiếp với các ý tưởng mới, và mang lại niềm vui cho người khác."),
   ((4 : Int), "Xây dựng nền tảng vững. Định mệnh của bạn là tạo ra sự ổn định, xây dựng các cơ sở vững chắc, và thực hiện công việc kỹ lưỡng."),
   ((5 : Int), "Phiêu lưu và thay đổi. Định mệnh của bạn là khám phá thế giới, chào đón thay đổi, và giải phóng tiềm năng của bạn."),
   ((6 : Int), "Phục vụ và trách nhiệm. Định mệnh của bạn là chăm sóc gia đình và cộng đồng, và tạo môi trường hòa bình."),
   ((7 : Int), "Khám phá và hiểu biết. Định mệnh của bạn là tìm kiếm chân lý, phát triển trí tuệ, và nâng cao nhận thức tâm linh."),
   ((8 : Int), "Thành công vật chất. Định mệnh của bạn là phát triển sự giàu có, thực hiện những mục tiêu lớn, và quản lý nguồn lực hiệu quả."),
   ((9 : Int), "Phục vụ nhân loại. Định mệnh của bạn là làm việc vì lợi ích chung, giảng dạy và giúp đỡ, cũng như hoàn thành chu kỳ."),
   ((11 : Int), "Sứ mệnh tinh thần cao. Định mệnh của bạn là mang tới ánh sáng, truyền cảm hứng cho những người khác, và phát triển ý thức mới."),
   ((22 : Int), "Xây dựng các công trình toàn cầu. Định mệnh của bạn là hiện thực hóa những kế hoạch lớn lao, tạo ra di sản lâu dài cho nhân loại."),
   ((33 : Int), "Dạy dỗ chữa lành. Định mệnh của bạn là yêu thương vô điều kiện, dạy bảo những người khác, và nâng cao con người.")]

def soulUrgeInterpretations : List (Int × String) :=
  [((1 : Int), "Mong muốn độc lập và lãnh đạo. Bộ mặt nội tâm của bạn hướng tới sự tự chủ, khám phá những điều mới lạ, và thể hiện tính cá nhân."),
   ((2 : Int), "Mong muốn hòa hợp và quan hệ gắn bó. Bộ mặt nội tâm của bạn tìm kiếm kết nối sâu sắc, an toàn trong nhóm, và cảm giác bình an."),
   ((3 : Int), "Mong muốn sáng tạo và biểu hiện. Bộ mặt nội tâm của bạn muốn chia sẻ tài năng, được nghe tiếng nói, và mang lại niềm vui."),
   ((4 : Int), "Mong muốn ổn định và trật tự. Bộ mặt nội tâm của bạn tìm kiếm hệ thống, công nhân cần cù, và đắc lực thực tế."),
   ((5 : Int), "Mong muốn tự do và khám phá. Bộ mặt nội tâm của bạn khao khát thay đổi, trải nghiệm, và sự linh hoạt."),
   ((6 : Int), "Mong muốn yêu thương và chăm sóc. Bộ mặt nội tâm của bạn muốn giúp đỡ, tạo tổ ấm, và xây dựng gia đình."),
   ((7 : Int), "Mong muốn tìm hiểu chân lý. Bộ mặt nội tâm của bạn khao khát hiểu biết sâu sắc, tâm linh, và sự bộc lộ."),
   ((8 : Int), "Mong muốn thành công vật chất. Bộ mặt nội tâm của bạn tìm kiếm sức mạnh, thành công, và kiểm soát."),
   ((9 : Int), "Mong muốn phục vụ nhân loại. Bộ mặt nội tâm của bạn muốn giúp đỡ, chữa lành, và nâng cao ý thức toàn cầu."),
   ((11 : Int), "Mong muốn truyền cảm hứng tâm linh. Bộ mặt nội tâm của bạn tìm kiếm sự sáng suốt cao, hành động có mục đích, và tác động toàn cầu."),
   ((22 : Int), "Mong muốn xây dựng di sản lớn. Bộ mặt nội tâm của bạn muốn thực hiện những dự án vĩ đại, lãnh đạo với quy mô lớn."),
   ((33 : Int), "Mong muốn yêu thương vô điều kiện. Bộ mặt nội tâm của bạn tìm kiếm sự tâm linh cao, dạy bảo, và chữa lành toàn diện.")]

def personalityInterpretations : List (Int × String) :=
  [((1 : Int), "Ngoại hình độc lập, quyết đoán, mạnh mẽ. Người khác nhìn thấy bạn là lãnh đạo tự tin, người tiên phong."),
   ((2 : Int), "Ngoại hình hợp tác, dịu dàng, lắng nghe. Người khác nhìn thấy bạn là người hòa hợp, bạn tốt, người cân bằng."),
   ((3 : Int), "Ngoại hình sáng tạo, vui vẻ, hòa hoạt. Người khác nhìn thấy bạn là nghệ sĩ, người vui tính, người ngoại hướng."),
   ((4 : Int), "Ngoại hình thực tế, tin cậy, bền bỉ. Người khác nhìn thấy bạn là người làm việc chăm chỉ, đáng tin cậy."),
   ((5 : Int), "Ngoại hình linh hoạt, năng động, tò mò. Người khác nhìn thấy bạn là người khám phá, linh hoạt, hay tiếp xúc."),
   ((6 : Int), "Ngoại hình chăm sóc, trách nhiệm, bình yên. Người khác nhìn thấy bạn là người giúp đỡ, cha mẹ tốt, người tạo hòa bình."),
   ((7 : Int), "Ngoại hình tư duy, bí ẩn, tâm linh. Người khác nhìn thấy bạn là người sâu sắc, trí tuệ, bí ẩn."),
   ((8 : Int), "Ngoại hình quyền lực, tự tin, quản lý. Người khác nhìn thấy bạn là lãnh tụ, người có ảnh hưởng, thành công."),
   ((9 : Int), "Ngoại hình nhân ái, hiểu biết, hoàn toàn. Người khác nhìn thấy bạn là người khôn ngoan, từ bi, toàn diện."),
   ((11 : Int), "Ngoại hình truyền cảm hứng, cao cao, lãnh tụ. Người khác nhìn thấy bạn là người tiên phong tâm linh, truyền cảm hứng."),
   ((22 : Int), "Ngoại hình hoàn thành lớn, quyết đoán, lãnh đạo. Người khác nhìn thấy bạn là xây dựng di sản, tầm nhìn rộng."),
   ((33 : Int), "Ngoại hình tình yêu vô điều kiện, dạy bảo, chữa lành. Người khác nhìn thấy bạn là thầy tế, lãnh đạo tinh thần.")]

def INTERPRETATIONS : List (String × List (Int × String)) :=
  [("life_path", lifePathInterpretations), ("destiny", destinyInterpretations), ("soul_urge", soulUrgeInterpretations), ("personality", personalityInterpretations)]

/-- `getInterpretation` from `interpretations.py`:

```
if numberType not in INTERPRETATIONS: raise ValueError(... unknown number type ...)
if value not in INTERPRETATIONS[numberType]: raise ValueError(... unknown value ...)
if language != "vi": raise ValueError(... not supported ...)
return INTERPRETATIONS[numberType][value]
```
-/
def getInterpretation (numberType : String) (value : Int) (language : String) :
    Except InterpError String :=
  match tableGet INTERPRETATIONS numberType with
  | none => Except.error InterpError.unknownCategory
  | some table =>
    match tableGet table value with
    | none => Except.error InterpError.unknownValue
    | some text =>
      if language ≠ "vi" then Except.error InterpError.unsupportedLocale
      else Except.ok text

/-! ### Lemmas and claim theorems -/

theorem tableGet_eq_none {α β : Type} [DecidableEq α] (l : List (α × β)) (a : α)
    (h : a ∉ l.map Prod.fst) : tableGet l a = none := by
  induction l with
  | nil => rfl
  | cons p rest ih =>
    simp only [List.map_cons, List.mem_cons, not_or] at h
    simp only [tableGet, if_neg h.1, ih h.2]

theorem tableGet_isSome_of_mem {α β : Type} [DecidableEq α] (l : List (α × β)) (a : α)
    (h : a ∈ l.map Prod.fst) : (tableGet l a).isSome := by
  induction l with
  | nil => simp at h
  | cons p rest ih =>
    simp only [List.map_cons, List.mem_cons] at h
    by_cases ha : a = p.1
    · simp [tableGet, ha]
    · simp only [tableGet, if_neg ha]
      exact ih (h.resolve_left ha)

theorem digitSumFuel_irrel (n : Nat) : ∀ f g, n ≤ f → n ≤ g →
    digitSumFuel f n = digitSumFuel g n := by
  induction n using Nat.strong_induction_on with
  | _ n ih =>
    intro f g hf hg
    match n, f, g with
    | 0, f, g => cases f <;> cases g <;> rfl
    | n + 1, f + 1, g + 1 =>
      simp only [digitSumFuel]
      have hd : (n + 1) / 10 < n + 1 := Nat.div_lt_self (Nat.succ_pos n) (by omega)
      have h1 : (n + 1) / 10 ≤ f := by omega
      have h2 : (n + 1) / 10 ≤ g := by omega
      rw [ih ((n + 1) / 10) hd f g h1 h2]

theorem digitSum_pos_eq (n : Nat) (h : 0 < n) :
    digitSum n = n % 10 + digitSum (n / 10) := by
  match n, h with
  | n + 1, _ =>
    show digitSumFuel (n + 1) (n + 1) = _
    simp only [digitSumFuel]
    have hd : (n + 1) / 10 < n + 1 := Nat.div_lt_self (Nat.succ_pos n) (by omega)
    rw [digitSumFuel_irrel ((n + 1) / 10) n ((n + 1) / 10) (by omega) (le_refl _)]
    rfl

theorem digitSum_le (n : Nat) : digitSum n ≤ n := by
  induction n using Nat.strong_induction_on with
  | _ n ih =>
    rcases Nat.eq_zero_or_pos n with h0 | h0
    · subst h0; exact Nat.le_refl 0
    · rw [digitSum_pos_eq n h0]
      have hd : n / 10 < n := Nat.div_lt_self h0 (by omega)
      have := ih (n / 10) hd
      omega

theorem digitSum_lt (n : Nat) (h : 10 ≤ n) : digitSum n < n := by
  rw [digitSum_pos_eq n (by omega)]
  have := digitSum_le (n / 10)
  omega

theorem reduceFuel_irrel (n : Nat) : ∀ f g, n < f → n < g →
    reduceFuel f n = reduceFuel g n := by
  induction n using Nat.strong_induction_on with
  | _ n ih =>
    intro f g hf hg
    match f, g, hf, hg with
    | f + 1, g + 1, _, _ =>
      simp only [reduceFuel]
      by_cases h10 : n < 10
      · simp [h10]
      · simp only [if_neg h10]
        by_cases hm : n = 11 ∨ n = 22 ∨ n = 33
        · simp [hm]
        · simp only [if_neg hm]
          have hd : digitSum n < n := digitSum_lt n (by omega)
          exact ih (digitSum n) hd f g (by omega) (by omega)

/-- One-step unfolding of the reduction loop. -/
theorem reduceNat_eq (n : Nat) : reduceNat n =
    if n < 10 then (if 0 < n then n else 9)
    else if n = 11 ∨ n = 22 ∨ n = 33 then n
    else reduceNat (digitSum n) := by
  show reduceFuel (n + 1) n = _
  simp only [reduceFuel]
  by_cases h10 : n < 10
  · simp [h10]
  · simp only [if_neg h10]
    by_cases hm : n = 11 ∨ n = 22 ∨ n = 33
    · simp [hm]
    · simp only [if_neg hm]
      have hd : digitSum n < n := digitSum_lt n (by omega)
      exact reduceFuel_irrel (digitSum n) n (digitSum n + 1) (by omega) (by omega)

/-- The reduction loop only produces 1–9 or a Master Number. -/
theorem reduceNat_range (n : Nat) :
    (1 ≤ reduceNat n ∧ reduceNat n ≤ 9) ∨ reduceNat n = 11 ∨ reduceNat n = 22 ∨
      reduceNat n = 33 := by
  induction n using Nat.strong_induction_on with
  | _ n ih =>
    rw [reduceNat_eq n]
    by_cases h10 : n < 10
    · by_cases h0 : 0 < n
      · simp only [if_pos h10, if_pos h0]; omega
      · simp only [if_pos h10, if_neg h0]; omega
    · simp only [if_neg h10]
      by_cases hm : n = 11 ∨ n = 22 ∨ n = 33
      · simp only [if_pos hm]; omega
      · simp only [if_neg hm]
        exact ih (digitSum n) (digitSum_lt n (by omega))

/-- Values already in the output range are fixed points of the loop. -/
theorem reduceNat_fixed (n : Nat)
    (h : (1 ≤ n ∧ n ≤ 9) ∨ n = 11 ∨ n = 22 ∨ n = 33) : reduceNat n = n := by
  rw [reduceNat_eq n]
  rcases h with h | h | h | h
  · simp only [if_pos (show n < 10 by omega), if_pos (show 0 < n by omega)]
  all_goals subst h; simp

theorem contains_eq_false_of_not_mem {l : List Char} {c : Char} (h : c ∉ l) :
    l.contains c = false := by
  cases hc : l.contains c with
  | false => rfl
  | true => exact absurd (List.mem_of_elem_eq_true hc) h

theorem pyUpperChar_default {c : Char} (h : c ∉ specialChars) : pyUpperChar c = [c] := by
  have hk : c ∉ upperPairs.map Prod.fst := fun hm =>
    h (by simp only [specialChars, List.mem_append]; tauto)
  simp only [pyUpperChar, tableGet_eq_none _ _ hk]

theorem pyLowerChar_default {c : Char} (h : c ∉ specialChars) : pyLowerChar c = [c] := by
  have hk : c ∉ lowerPairs.map Prod.fst := fun hm =>
    h (by simp only [specialChars, List.mem_append]; tauto)
  simp only [pyLowerChar, tableGet_eq_none _ _ hk]

theorem nfdChar_default {c : Char} (h : c ∉ specialChars) : nfdChar c = [c] := by
  have hk : c ∉ nfdPairs.map Prod.fst := fun hm =>
    h (by simp only [specialChars, List.mem_append]; tauto)
  simp only [nfdChar, tableGet_eq_none _ _ hk]

theorem pyIsAlpha_default {c : Char} (h : c ∉ specialChars) : pyIsAlpha c = false := by
  have hk : c ∉ alphaChars := fun hm =>
    h (by simp only [specialChars, List.mem_append]; tauto)
  exact contains_eq_false_of_not_mem hk

theorem is_vowel_default {c : Char} (h : c ∉ specialChars) : is_vowel c = false := by
  have hv : c ∉ VIETNAMESE_VOWELS := fun hm =>
    h (by simp only [specialChars, List.mem_append]; tauto)
  simp only [is_vowel, pyLowerChar_default h, normalize_vietnamese, nfdChar_default h,
    List.append_nil, List.head?_cons]
  exact contains_eq_false_of_not_mem hv

theorem get_letter_value_default {c : Char} (h : c ∉ specialChars) :
    get_letter_value c = 0 := by
  have hk : c ∉ LETTER_TO_NUMBER.map Prod.fst := fun hm =>
    h (by simp only [specialChars, List.mem_append]; tauto)
  simp only [get_letter_value, pyUpperChar_default h, normalize_vietnamese,
    nfdChar_default h, List.append_nil, List.head?_cons, tableGet_eq_none _ _ hk,
    Option.getD_none]

/-- Finite check: every tabulated character with a positive letter value is
classified as a vowel or as alphabetic. -/
theorem specialChars_value_class : specialChars.all
    (fun c => pyIsAlpha c || is_vowel c || decide (get_letter_value c = 0)) = true := by
  decide

/-- Any character with a positive Pythagorean value is a vowel or alphabetic
(so the vowel/consonant extraction loses no letter value). -/
theorem value_pos_class {c : Char} (h : 0 < get_letter_value c) :
    is_vowel c = true ∨ pyIsAlpha c = true := by
  by_cases hs : c ∈ specialChars
  · have := List.all_eq_true.mp specialChars_value_class c hs
    rcases Bool.or_eq_true_iff.mp this with h' | h'
    · rcases Bool.or_eq_true_iff.mp h' with h'' | h''
      · exact Or.inr h''
      · exact Or.inl h''
    · exact absurd (of_decide_eq_true h') (by omega)
  · exact absurd (get_letter_value_default hs) (by omega)

/-- C5: the vowel-sum used by calculateSoulUrge plus the consonant-sum used by
calculatePersonality equals the total pre-reduction sum used by
calculateDestiny, for every name string. -/
theorem vowel_consonant_sum_partition (name : List Char) :
    sum_letter_values (extract_vowels name) + sum_letter_values (extract_consonants name) =
      sum_letter_values name := by
  induction name with
  | nil => rfl
  | cons c cs ih =>
    simp only [extract_vowels, extract_consonants] at ih
    simp only [extract_vowels, extract_consonants, List.filter_cons]
    cases hv : is_vowel c with
    | true =>
      have hc : is_consonant c = false := by simp [is_consonant, hv]
      simp [hc, sum_letter_values]
      omega
    | false =>
      cases ha : pyIsAlpha c with
      | true =>
        have hc : is_consonant c = true := by simp [is_consonant, hv, ha]
        simp [hc, sum_letter_values]
        omega
      | false =>
        have hc : is_consonant c = false := by simp [is_consonant, ha]
        have hz : get_letter_value c = 0 := by
          by_contra hnz
          rcases value_pos_class (Nat.pos_of_ne_zero hnz) with h | h
          · rw [hv] at h; exact Bool.false_ne_true h
          · rw [ha] at h; exact Bool.false_ne_true h
        simp [hc, sum_letter_values, hz]
        omega

theorem tableGet_mem_keys {α β : Type} [DecidableEq α] {l : List (α × β)} {a : α} {b : β}
    (h : tableGet l a = some b) : a ∈ l.map Prod.fst := by
  induction l with
  | nil => exact absurd h (by simp [tableGet])
  | cons p rest ih =>
    by_cases ha : a = p.1
    · simp [ha]
    · simp only [tableGet] at h
      rw [if_neg ha] at h
      simp only [List.map_cons, List.mem_cons]
      exact Or.inr (ih h)

theorem letter_keys_range : (LETTER_TO_NUMBER.map Prod.fst).all
    (fun k => decide ('A' ≤ k) && decide (k ≤ 'Z')) = true := by
  decide

theorem letter_keys_nfd : (LETTER_TO_NUMBER.map Prod.fst).all
    (fun k => decide (nfdChar k = [k])) = true := by
  decide

/-- If the letter value of a character is nonzero, the NFD of its uppercase form
begins with a letter A-Z. -/
theorem value_ne_zero_head {c : Char} (h : get_letter_value c ≠ 0) :
    ∃ hh, (normalize_vietnamese (pyUpperChar c)).head? = some hh ∧ 'A' ≤ hh ∧ hh ≤ 'Z' := by
  have keyRange : ∀ k, k ∈ LETTER_TO_NUMBER.map Prod.fst → 'A' ≤ k ∧ k ≤ 'Z' := by
    intro k hk
    have := List.all_eq_true.mp letter_keys_range k hk
    rcases Bool.and_eq_true_iff.mp this with ⟨h1, h2⟩
    exact ⟨of_decide_eq_true h1, of_decide_eq_true h2⟩
  have keyNfd : ∀ k, k ∈ LETTER_TO_NUMBER.map Prod.fst → nfdChar k = [k] := by
    intro k hk
    exact of_decide_eq_true (List.all_eq_true.mp letter_keys_nfd k hk)
  unfold get_letter_value at h
  cases hN : (normalize_vietnamese (pyUpperChar c)).head? with
  | some hh =>
    rw [hN] at h
    dsimp only at h
    cases hL : tableGet LETTER_TO_NUMBER hh with
    | some v =>
      have hk := tableGet_mem_keys hL
      exact ⟨hh, rfl, keyRange hh hk⟩
    | none =>
      rw [hL] at h
      dsimp only at h
      cases hU : pyUpperChar c with
      | nil =>
        rw [hU] at h
        dsimp only at h
        exact absurd rfl h
      | cons u rest =>
        cases rest with
        | nil =>
          rw [hU] at h hN
          dsimp only at h
          cases hLu : tableGet LETTER_TO_NUMBER u with
          | none => rw [hLu] at h; simp at h
          | some v =>
            have hk := tableGet_mem_keys hLu
            have heq : normalize_vietnamese [u] = [u] := by
              show nfdChar u ++ normalize_vietnamese [] = [u]
              rw [keyNfd u hk]; rfl
            rw [heq] at hN
            have huh : u = hh := by simpa using hN
            subst huh
            exact absurd hL (by rw [hLu]; simp)
        | cons u2 rest2 =>
          rw [hU] at h
          dsimp only at h
          exact absurd rfl h
  | none =>
    rw [hN] at h
    dsimp only at h
    cases hU : pyUpperChar c with
    | nil =>
      rw [hU] at h
      dsimp only at h
      exact absurd rfl h
    | cons u rest =>
      cases rest with
      | nil =>
        rw [hU] at h hN
        dsimp only at h
        cases hLu : tableGet LETTER_TO_NUMBER u with
        | none => rw [hLu] at h; simp at h
        | some v =>
          have hk := tableGet_mem_keys hLu
          have heq : normalize_vietnamese [u] = [u] := by
            show nfdChar u ++ normalize_vietnamese [] = [u]
            rw [keyNfd u hk]; rfl
          rw [heq] at hN
          simp at hN
      | cons u2 rest2 =>
        rw [hU] at h
        dsimp only at h
        exact absurd rfl h

theorem getInterpretation_unfold_some {name : String} {tbl : List (Int × String)}
    (htbl : tableGet INTERPRETATIONS name = some tbl) (v : Int) (l : String) :
    getInterpretation name v l =
      (match tableGet tbl v with
       | none => Except.error InterpError.unknownValue
       | some text =>
         if l ≠ "vi" then Except.error InterpError.unsupportedLocale
         else Except.ok text) := by
  unfold getInterpretation
  rw [htbl]

/-- C1 (code bug): `calculatePersonalYear` and `calculatePersonalMonth` reduce
with the Master-Number-preserving `_reduce_to_single_digit`, so they can
return 22, contradicting their own docstrings and the stated test-suite
range of 1 to 9. -/
theorem personalYear_personalMonth_master_leak :
    calculatePersonalYear 12 29 2015 = 22 ∧ calculatePersonalMonth 29 12 2015 = 22 := by
  decide

/-- C2: the reducer only produces values in {1..9, 11, 22, 33}, and it is
idempotent. -/
theorem reduce_range_and_idempotent (n : Int) :
    ((1 ≤ reduce_to_single_digit n ∧ reduce_to_single_digit n ≤ 9) ∨
      reduce_to_single_digit n = 11 ∨ reduce_to_single_digit n = 22 ∨
      reduce_to_single_digit n = 33) ∧
    reduce_to_single_digit (reduce_to_single_digit n) = reduce_to_single_digit n := by
  have hr := reduceNat_range n.natAbs
  constructor
  · unfold reduce_to_single_digit
    omega
  · show reduce_to_single_digit ((reduceNat n.natAbs : Nat) : Int) =
      ((reduceNat n.natAbs : Nat) : Int)
    unfold reduce_to_single_digit
    rw [Int.natAbs_ofNat]
    exact congrArg (fun k : Nat => (k : Int)) (reduceNat_fixed _ hr)

/-- C3: concrete edge cases of the reducer, and the negative-input symmetry. -/
theorem reduce_edge_cases :
    reduce_to_single_digit 10 = 1 ∧ reduce_to_single_digit 14 = 5 ∧
    reduce_to_single_digit 29 = 11 ∧ reduce_to_single_digit 47 = 11 ∧
    reduce_to_single_digit 38 = 11 ∧ reduce_to_single_digit 39 = 3 ∧
    reduce_to_single_digit 0 = 9 ∧
    (∀ n : Int, n < 0 → reduce_to_single_digit n = reduce_to_single_digit (-n)) := by
  refine ⟨by decide, by decide, by decide, by decide, by decide, by decide, by decide, ?_⟩
  intro n _
  unfold reduce_to_single_digit
  rw [Int.natAbs_neg]

theorem reduce_edge_cases_witness :
    (-47 : Int) < 0 ∧ reduce_to_single_digit (-47) = reduce_to_single_digit 47 :=
  ⟨by decide, reduce_edge_cases.2.2.2.2.2.2.2 (-47) (by decide)⟩

/-- C4: every diacritic-marked form of the base vowels A, E, I, O, U, Ơ, Ư
(either case) is classified as a vowel and has the letter value of its base. -/
theorem marked_vowel_forms_classify_like_base :
    c4MarkedBasePairs.all
      (fun p => is_vowel p.1 && decide (get_letter_value p.1 = get_letter_value p.2)) =
      true := by
  decide

/-- Per-category behaviour of `getInterpretation`, shared by the four valid
categories. -/
theorem getInterpretation_category (name : String) (tbl : List (Int × String))
    (htbl : tableGet INTERPRETATIONS name = some tbl)
    (hkeys : tbl.map Prod.fst = ([1, 2, 3, 4, 5, 6, 7, 8, 9, 11, 22, 33] : List Int)) :
    (∀ v l, v ∉ ([1, 2, 3, 4, 5, 6, 7, 8, 9, 11, 22, 33] : List Int) →
      getInterpretation name v l = Except.error InterpError.unknownValue) ∧
    (∀ v l, v ∈ ([1, 2, 3, 4, 5, 6, 7, 8, 9, 11, 22, 33] : List Int) → l ≠ "vi" →
      getInterpretation name v l = Except.error InterpError.unsupportedLocale) ∧
    (∀ v, v ∈ ([1, 2, 3, 4, 5, 6, 7, 8, 9, 11, 22, 33] : List Int) →
      ∃ txt, tableGet tbl v = some txt ∧ getInterpretation name v "vi" = Except.ok txt) := by
  refine ⟨?_, ?_, ?_⟩
  · intro v l hv
    rw [getInterpretation_unfold_some htbl v l,
      tableGet_eq_none tbl v (by rw [hkeys]; exact hv)]
  · intro v l hv hl
    obtain ⟨txt, htxt⟩ := Option.isSome_iff_exists.mp
      (tableGet_isSome_of_mem tbl v (by rw [hkeys]; exact hv))
    rw [getInterpretation_unfold_some htbl v l, htxt]
    simp [hl]
  · intro v hv
    obtain ⟨txt, htxt⟩ := Option.isSome_iff_exists.mp
      (tableGet_isSome_of_mem tbl v (by rw [hkeys]; exact hv))
    refine ⟨txt, htxt, ?_⟩
    rw [getInterpretation_unfold_some htbl v "vi", htxt]
    simp

/-- C8: interpretation lookup fails exactly on an unknown category, an unknown
value, or an unsupported locale, and returns the table text otherwise. -/
theorem getInterpretation_semantics :
    (∀ t v l, t ∉ (["life_path", "destiny", "soul_urge", "personality"] : List String) →
      getInterpretation t v l = Except.error InterpError.unknownCategory) ∧
    (∀ t v l, t ∈ (["life_path", "destiny", "soul_urge", "personality"] : List String) →
      v ∉ ([1, 2, 3, 4, 5, 6, 7, 8, 9, 11, 22, 33] : List Int) →
      getInterpretation t v l = Except.error InterpError.unknownValue) ∧
    (∀ t v l, t ∈ (["life_path", "destiny", "soul_urge", "personality"] : List String) →
      v ∈ ([1, 2, 3, 4, 5, 6, 7, 8, 9, 11, 22, 33] : List Int) → l ≠ "vi" →
      getInterpretation t v l = Except.error InterpError.unsupportedLocale) ∧
    (∀ t v, t ∈ (["life_path", "destiny", "soul_urge", "personality"] : List String) →
      v ∈ ([1, 2, 3, 4, 5, 6, 7, 8, 9, 11, 22, 33] : List Int) →
      ∃ tbl txt, tableGet INTERPRETATIONS t = some tbl ∧ tableGet tbl v = some txt ∧
        getInterpretation t v "vi" = Except.ok txt) := by
  have hkeys : INTERPRETATIONS.map Prod.fst =
      ["life_path", "destiny", "soul_urge", "personality"] := rfl
  have hlp := getInterpretation_category "life_path" lifePathInterpretations rfl rfl
  have hde := getInterpretation_category "destiny" destinyInterpretations rfl rfl
  have hsu := getInterpretation_category "soul_urge" soulUrgeInterpretations rfl rfl
  have hpe := getInterpretation_category "personality" personalityInterpretations rfl rfl
  refine ⟨?_, ?_, ?_, ?_⟩
  · intro t v l ht
    unfold getInterpretation
    rw [tableGet_eq_none INTERPRETATIONS t (by rw [hkeys]; exact ht)]
  · intro t v l ht hv
    simp only [List.mem_cons, List.not_mem_nil, or_false] at ht
    rcases ht with rfl | rfl | rfl | rfl
    · exact hlp.1 v l hv
    · exact hde.1 v l hv
    · exact hsu.1 v l hv
    · exact hpe.1 v l hv
  · intro t v l ht hv hl
    simp only [List.mem_cons, List.not_mem_nil, or_false] at ht
    rcases ht with rfl | rfl | rfl | rfl
    · exact hlp.2.1 v l hv hl
    · exact hde.2.1 v l hv hl
    · exact hsu.2.1 v l hv hl
    · exact hpe.2.1 v l hv hl
  · intro t v ht hv
    simp only [List.mem_cons, List.not_mem_nil, or_false] at ht
    rcases ht with rfl | rfl | rfl | rfl
    · obtain ⟨txt, h1, h2⟩ := hlp.2.2 v hv
      exact ⟨lifePathInterpretations, txt, rfl, h1, h2⟩
    · obtain ⟨txt, h1, h2⟩ := hde.2.2 v hv
      exact ⟨destinyInterpretations, txt, rfl, h1, h2⟩
    · obtain ⟨txt, h1, h2⟩ := hsu.2.2 v hv
      exact ⟨soulUrgeInterpretations, txt, rfl, h1, h2⟩
    · obtain ⟨txt, h1, h2⟩ := hpe.2.2 v hv
      exact ⟨personalityInterpretations, txt, rfl, h1, h2⟩

theorem getInterpretation_semantics_witness :
    getInterpretation "career" 1 "vi" = Except.error InterpError.unknownCategory ∧
    getInterpretation "life_path" 10 "vi" = Except.error InterpError.unknownValue ∧
    getInterpretation "life_path" 1 "en" = Except.error InterpError.unsupportedLocale ∧
    (∃ txt, getInterpretation "life_path" 1 "vi" = Except.ok txt) := by
  obtain ⟨h1, h2, h3, h4⟩ := getInterpretation_semantics
  refine ⟨h1 "career" 1 "vi" (by decide), h2 "life_path" 10 "vi" (by decide) (by decide),
    h3 "life_path" 1 "en" (by decide) (by decide) (by decide), ?_⟩
  obtain ⟨tbl, txt, _, _, hok⟩ := h4 "life_path" 1 (by decide) (by decide)
  exact ⟨txt, hok⟩

/-- C9: y and its tone-marked forms are consonants, never vowels, in either
case — their `VIETNAMESE_VOWELS` entries are unreachable because membership is
tested on the NFD base character y, which is not in the table. -/
theorem y_forms_consonants :
    (['y', 'ý', 'ỳ', 'ỷ', 'ỹ', 'ỵ', 'Y', 'Ý', 'Ỳ', 'Ỷ', 'Ỹ', 'Ỵ'] : List Char).all
      (fun c => !(is_vowel c) && is_consonant c) = true ∧
    (['ý', 'ỳ', 'ỷ', 'ỹ', 'ỵ'] : List Char).all
      (fun c => VIETNAMESE_VOWELS.contains c) = true ∧
    extract_vowels ['ý', 'Ỵ'] = [] ∧
    extract_consonants ['ý', 'Ỵ'] = ['ý', 'Ỵ'] := by
  decide

/-- C10: an alphabetic character whose uppercased NFD form does not begin with
a letter A-Z has letter value 0; in particular đ/Đ count as consonants of
value 0, and the name ĐĐ yields 9 for Destiny and Personality. -/
theorem undecomposed_letters_value_zero :
    (∀ c : Char, pyIsAlpha c = true →
      ((normalize_vietnamese (pyUpperChar c)).head?.all
        (fun hh => !(decide ('A' ≤ hh) && decide (hh ≤ 'Z')))) = true →
      get_letter_value c = 0) ∧
    is_consonant 'đ' = true ∧ is_consonant 'Đ' = true ∧
    get_letter_value 'đ' = 0 ∧ get_letter_value 'Đ' = 0 ∧
    calculateDestiny ['Đ', 'Đ'] = 9 ∧ calculatePersonality ['Đ', 'Đ'] = 9 := by
  refine ⟨?_, by decide, by decide, by decide, by decide, by decide, by decide⟩
  intro c _ hhead
  by_contra hnz
  obtain ⟨hh, hN, hA, hZ⟩ := value_ne_zero_head hnz
  rw [hN] at hhead
  simp [Option.all, hA, hZ] at hhead

theorem undecomposed_letters_value_zero_witness :
    pyIsAlpha 'đ' = true ∧
    ((normalize_vietnamese (pyUpperChar 'đ')).head?.all
      (fun hh => !(decide ('A' ≤ hh) && decide (hh ≤ 'Z')))) = true ∧
    get_letter_value 'đ' = 0 :=
  ⟨by decide, by decide, undecomposed_letters_value_zero.1 'đ' (by decide) (by decide)⟩
